import Mathlib

/-!
Verification of the OrderFlow order-ledger core (`src/app.py`).

The Python source is shallowly embedded: DataFrame rows become a `Row`
structure, numeric cells that may be NaN (after `pd.to_numeric(...,
errors="coerce")`) become `Option ℚ`, dates that may be NaT become
`Option Date`, and the Streamlit handlers' pure data transformations
become Lean functions.  Fallible operations return `Option` or `Except`.
-/

namespace OrderFlow

/-- Calendar date as stored in a `pd.Timestamp` (time-of-day is always
midnight in this app, so it is dropped). -/
structure Date where
  year : Nat
  month : Nat
  day : Nat
deriving DecidableEq, Repr

/-- One ledger row.  Mirrors the twelve columns of `EXPECTED_COLS`
(`app.py:36-40`).  `Quantity`, `Cost Price`, `Sale Price`, `Profit` are
`Option ℚ` because `pd.to_numeric(..., errors="coerce")` turns
unparseable cells into NaN (`app.py:68-70`); `Date` is `Option Date`
because `pd.to_datetime(..., errors="coerce")` yields NaT
(`app.py:71-72`). -/
structure Row where
  customerName : String
  number : String
  order : String
  quantity : Option ℚ
  nameset : String
  costPrice : Option ℚ
  salePrice : Option ℚ
  profit : Option ℚ
  orderStatus : String
  paymentStatus : String
  trackingDetail : String
  date : Option Date
deriving DecidableEq, Repr

/-- The canonical column list `EXPECTED_COLS` (`app.py:36-40`). -/
def EXPECTED_COLS : List String :=
  ["Customer Name", "Number", "Order", "Quantity", "Nameset",
   "Cost Price", "Sale Price", "Profit",
   "Order Status", "Payment Status", "Tracking Detail", "Date"]

/-- Allowed `Order Status` values (`app.py:311,368`). -/
def ORDER_STATUS_OPTIONS : List String :=
  ["Pending", "In Production", "Shipped", "Delivered", "Cancelled"]

/-- Allowed `Payment Status` values (`app.py:312,373`). -/
def PAYMENT_STATUS_OPTIONS : List String :=
  ["Unpaid", "Partially Paid", "Paid"]

/-! ### Character-level string helpers

Lean's built-in `String.trim` and `String.replace` do not reduce well in
the kernel, so the Python `str` operations used by the source are
modelled at the `List Char` level and wrapped back into `String`. -/

/-- Strip leading and trailing whitespace, as Python `str.strip()`. -/
def trimChars (cs : List Char) : List Char :=
  ((cs.dropWhile Char.isWhitespace).reverse.dropWhile Char.isWhitespace).reverse

/-- Python `str.strip()` on a `String`. -/
def pyStrip (s : String) : String := String.mk (trimChars s.toList)

/-- Split a character list on commas, as Python `"".split(",")`:
always returns at least one (possibly empty) group. -/
def splitCommas (cs : List Char) : List (List Char) :=
  List.foldr (fun c acc =>
    match acc with
    | [] => if c = ',' then [[], []] else [[c]]
    | g :: gs => if c = ',' then [] :: g :: gs else (c :: g) :: gs) [[]] cs

/-- The order-text tokenizer of the Add-Order form (`app.py:302`):
`[o.strip() for o in order_input.replace(chr(10), ",").split(",") if o.strip()]`.
Newlines are first replaced by commas, the text is split on commas, each
piece is stripped, and empty pieces are dropped. -/
def splitOrders (s : String) : List String :=
  (((s.toList.map (fun c => if c = '\n' then ',' else c)) |> splitCommas).map
      (fun g => String.mk (trimChars g))).filter (fun t => t ≠ "")

/-! ### Order Record Model: numeric coercion (`safe_int` / `safe_float`) -/

/-- Python exception classes arising in `safe_int` / `safe_float`:
`ValueError` and `TypeError` are the ones the except clause catches
(`app.py:113,119`); `OverflowError`, raised by `int()` of an infinite
float, is NOT in that tuple. -/
inductive PyErr where
  | valueError
  | typeError
  | overflowError
deriving DecidableEq, Repr

/-- A Python float value: a finite value (idealized as an exact
rational — binary rounding is not modelled), one of the two infinities,
or NaN. -/
inductive PyFloat where
  | finite (q : ℚ)
  | inf
  | negInf
  | nan
deriving DecidableEq, Repr

/-- Python value handed to `safe_int` / `safe_float`: a string cell, an
already-numeric cell (possibly NaN or infinite), or `None`. -/
inductive PyVal where
  | str (s : String)
  | num (f : PyFloat)
  | none_
deriving DecidableEq, Repr

/-- Decimal digits only, and used below to require at least one digit. -/
def allDigits (cs : List Char) : Bool := cs.all Char.isDigit

/-- Numeric value of a digit string. -/
def natOfDigits (cs : List Char) : Nat :=
  cs.foldl (fun a c => a * 10 + (c.toNat - 48)) 0

/-- ASCII lower-casing of one character, for the case-insensitive
`inf`/`infinity`/`nan` spellings accepted by Python `float()`. -/
def lowerChar (c : Char) : Char :=
  if 'A' ≤ c ∧ c ≤ 'Z' then Char.ofNat (c.toNat + 32) else c

/-- ASCII lower-casing of a character list. -/
def lowerStr (cs : List Char) : List Char := cs.map lowerChar

/-- The largest finite IEEE double, exactly: (2^53 - 1) * 2^971. -/
def DBL_MAX : ℚ := ((2 : ℚ) ^ 53 - 1) * (2 : ℚ) ^ 971

/-- Unsigned decimal mantissa: digits with an optional single decimal
point, at least one digit overall. -/
def parseDecimalMantissa (cs : List Char) : Option ℚ :=
  let intPart := cs.takeWhile (fun c => c ≠ '.')
  let rest := cs.dropWhile (fun c => c ≠ '.')
  match rest with
  | [] => if cs ≠ [] ∧ allDigits cs then some (natOfDigits cs) else none
  | _ :: frac =>
      if allDigits intPart ∧ allDigits frac ∧ (intPart ≠ [] ∨ frac ≠ []) then
        some ((natOfDigits intPart : ℚ) + (natOfDigits frac : ℚ) / (10 ^ frac.length))
      else none

/-- Unsigned mantissa with an optional `e`/`E` exponent part, as in
`1e400` or `2.5E-3`: the exact rational value of the literal. -/
def parseMantissaExp (body : List Char) : Option ℚ :=
  let mant := body.takeWhile (fun c => c ≠ 'e' ∧ c ≠ 'E')
  let erest := body.dropWhile (fun c => c ≠ 'e' ∧ c ≠ 'E')
  match parseDecimalMantissa mant, erest with
  | none, _ => none
  | some m, [] => some m
  | some m, _ :: ex =>
      let signDig : Bool × List Char :=
        match ex with
        | '+' :: r => (false, r)
        | '-' :: r => (true, r)
        | _ => (false, ex)
      let eneg := signDig.1
      let edig := signDig.2
      if edig ≠ [] ∧ allDigits edig then
        some (if eneg then m / (10 : ℚ) ^ natOfDigits edig
              else m * (10 : ℚ) ^ natOfDigits edig)
      else none

/-- Python `float(str)`: optional surrounding whitespace and sign, then
a case-insensitive `inf`/`infinity`/`nan` spelling or a decimal literal
with optional exponent.  A finite literal whose magnitude exceeds
`DBL_MAX` overflows to the corresponding infinity, as C `strtod` does
(the half-ulp rounding band just above `DBL_MAX` and digit-group
underscores are idealized away).  Anything else is a `ValueError`
(`none`). -/
def floatOfString (s : String) : Option PyFloat :=
  let cs := trimChars s.toList
  let signBody : Bool × List Char :=
    match cs with
    | '+' :: rest => (false, rest)
    | '-' :: rest => (true, rest)
    | _ => (false, cs)
  let neg := signBody.1
  let lbody := lowerStr signBody.2
  if lbody = ['i', 'n', 'f'] ∨ lbody = ['i', 'n', 'f', 'i', 'n', 'i', 't', 'y'] then
    some (if neg then PyFloat.negInf else PyFloat.inf)
  else if lbody = ['n', 'a', 'n'] then some PyFloat.nan
  else
    match parseMantissaExp signBody.2 with
    | none => none
    | some m =>
        let v : ℚ := if neg then -m else m
        if v > DBL_MAX then some PyFloat.inf
        else if v < -DBL_MAX then some PyFloat.negInf
        else some (PyFloat.finite v)

/-- Python `float(value)`: numbers pass through unchanged, strings are
parsed (`ValueError` on failure), `None` raises `TypeError`. -/
def float_ : PyVal → Except PyErr PyFloat
  | PyVal.num f => Except.ok f
  | PyVal.str s =>
      match floatOfString s with
      | some f => Except.ok f
      | none => Except.error PyErr.valueError
  | PyVal.none_ => Except.error PyErr.typeError

/-- Python `int()` applied to a float: truncation toward zero on finite
values, `OverflowError` on the infinities, `ValueError` on NaN. -/
def int_ : PyFloat → Except PyErr ℤ
  | PyFloat.finite q => Except.ok (if 0 ≤ q then ⌊q⌋ else ⌈q⌉)
  | PyFloat.inf => Except.error PyErr.overflowError
  | PyFloat.negInf => Except.error PyErr.overflowError
  | PyFloat.nan => Except.error PyErr.valueError

/-- The `except (ValueError, TypeError)` clause (`app.py:113,119`):
those two exceptions are replaced by `default`; any other exception —
in particular `OverflowError` — propagates to the caller. -/
def catchValueType {α : Type} (x : Except PyErr α) (default : α) :
    Except PyErr α :=
  match x with
  | Except.ok a => Except.ok a
  | Except.error PyErr.valueError => Except.ok default
  | Except.error PyErr.typeError => Except.ok default
  | Except.error PyErr.overflowError => Except.error PyErr.overflowError

/-- Embedding of `safe_int` (`app.py:110-114`): `int(float(value))`
inside `try/except (ValueError, TypeError)`.  An `Except.error` result
is an exception escaping to the caller. -/
def safe_int (value : PyVal) (default : ℤ := 1) : Except PyErr ℤ :=
  catchValueType ((float_ value).bind int_) default

/-- Embedding of `safe_float` (`app.py:116-120`): `float(value)` inside
`try/except (ValueError, TypeError)`. -/
def safe_float (value : PyVal) (default : PyFloat := PyFloat.finite 0) :
    Except PyErr PyFloat :=
  catchValueType (float_ value) default

/-! ### Order Record Model: profit and enum normalization -/

/-- The profit formula `profit = sale - cost` (`app.py:309` and
`app.py:366`). -/
def computeProfit (cost sale : ℚ) : ℚ := sale - cost

/-- Embedding of the enum-repair idiom of the edit form
(`app.py:368-376`): the stored value is `str(...).strip()`-ed and looked
up case-sensitively in the allowed list; on a miss the index falls back
to `0`, i.e. the first allowed value. -/
def normalizeEnum (raw : String) (allowed : List String) : String :=
  let t := pyStrip raw
  if t ∈ allowed then t else allowed.headD ""

/-! ### Ledger Service: add / edit / delete -/

/-- Input fields of the Add-Order form (`app.py:296-314`). -/
structure AddFields where
  name : String
  number : String
  orderText : String
  quantity : ℚ
  nameset : String
  cost : ℚ
  sale : ℚ
  status : String
  payment : String
  tracking : String
  date : Date
deriving DecidableEq, Repr

/-- The `new_entry` dict built by the Add-Order handler
(`app.py:319-332`): order items are rejoined with the fixed delimiter,
and `Profit` is `sale - cost`. -/
def mkRow (f : AddFields) : Row :=
  { customerName := f.name
    number := f.number
    order := String.intercalate "; " (splitOrders f.orderText)
    quantity := some f.quantity
    nameset := f.nameset
    costPrice := some f.cost
    salePrice := some f.sale
    profit := some (f.sale - f.cost)
    orderStatus := f.status
    paymentStatus := f.payment
    trackingDetail := f.tracking
    date := some f.date }

/-- Embedding of the Add-Order submission (`app.py:317-341`): the row is
appended only when `name and number and order_list` is truthy, i.e. both
strings are non-empty and the tokenized order list is non-empty;
otherwise nothing is persisted (`st.error` branch). -/
def addOrder (snap : List Row) (f : AddFields) : Option (List Row) :=
  if f.name ≠ "" ∧ f.number ≠ "" ∧ splitOrders f.orderText ≠ [] then
    some (snap ++ [mkRow f])
  else
    none

/-- The row written back by the edit form (`app.py:389-393`): all twelve
fields replaced, `Profit` recomputed as `sale - cost` (`app.py:366`).
Unlike add, the `Order` text is stored verbatim (`app.py:359`). -/
def editRow (name number order : String) (quantity : ℚ) (nameset : String)
    (cost sale : ℚ) (status payment tracking : String) (date : Date) : Row :=
  { customerName := name
    number := number
    order := order
    quantity := some quantity
    nameset := nameset
    costPrice := some cost
    salePrice := some sale
    profit := some (sale - cost)
    orderStatus := status
    paymentStatus := payment
    trackingDetail := tracking
    date := some date }

/-- Embedding of `data.loc[row_id] = [...]` (`app.py:389-393`): replace
the row at position `i`. -/
def editOrder (snap : List Row) (i : Nat) (r : Row) : List Row :=
  snap.set i r

/-- Embedding of `data.drop(index=row_id).reset_index(drop=True)`
(`app.py:399`): remove the row at position `i`, re-indexing the rest. -/
def deleteOrder (snap : List Row) (i : Nat) : List Row :=
  snap.eraseIdx i

/-! ### Aggregation Engine (`summary_dashboard`, `app.py:125-222`) -/

/-- Decimal digit character for the low digit of a number. -/
def digitChar (n : Nat) : Char := Char.ofNat (48 + n % 10)

/-- Two-digit zero-padded rendering, as `strftime` uses for `%d` and
`%m` (exact for values below 100, which covers all real days and
months). -/
def pad2 (n : Nat) : String := String.mk [digitChar (n / 10), digitChar n]

/-- Four-digit zero-padded rendering, as `strftime` uses for `%Y` and
`pd.Period` for the year (exact for years below 10000). -/
def pad4 (n : Nat) : String :=
  String.mk [digitChar (n / 1000), digitChar (n / 100), digitChar (n / 10), digitChar n]

/-- String form of `pd.Period(freq="M")`: the `"YYYY-MM"` bucket label
(`app.py:134`). -/
def periodM (d : Date) : String := pad4 d.year ++ "-" ++ pad2 d.month

/-- Month bucket of a row: `data["Date"].dt.to_period("M").astype(str)`
(`app.py:134`).  A NaT date stringifies to `"NaT"`, which becomes its
own group. -/
def monthKey (r : Row) : String :=
  match r.date with
  | some d => periodM d
  | none => "NaT"

/-- Comparison used by `df.sort_values(by="Date")`: ascending by date,
NaT rows placed last (pandas default `na_position="last"`). -/
def dateLeB (r1 r2 : Row) : Bool :=
  match r1.date, r2.date with
  | none, none => true
  | none, some _ => false
  | some _, none => true
  | some a, some b =>
      decide (a.year < b.year ∨ (a.year = b.year ∧
        (a.month < b.month ∨ (a.month = b.month ∧ a.day ≤ b.day))))

/-- The Date normalization at the top of `summary_dashboard`
(`app.py:128-132`): if every date is null the whole column is set to
today; otherwise the frame is re-parsed (a no-op on the typed model) and
sorted by Date. -/
def withDates (today : Date) (rows : List Row) : List Row :=
  if rows.all (fun r => r.date = none) then
    rows.map (fun r => { r with date := some today })
  else
    rows.mergeSort dateLeB

/-- Lexicographic (code-point) order on character lists, as Python
compares strings; used for the sorted group keys of `groupby`. -/
def charListLe : List Char → List Char → Bool
  | [], _ => true
  | _ :: _, [] => false
  | a :: as, b :: bs => if a < b then true else if b < a then false else charListLe as bs

/-- Boolean string order for sorting group keys. -/
def strLeB (a b : String) : Bool := charListLe a.toList b.toList

/-- First-occurrence deduplication, as the set of `groupby` keys (before
sorting) and the index of `value_counts` (grouping keeps one entry per
distinct value). -/
def dedupFirst {α : Type} [DecidableEq α] : List α → List α
  | [] => []
  | a :: l => a :: dedupFirst (l.filter (fun b => b ≠ a))
termination_by l => l.length
decreasing_by
  simp only [List.length_cons]
  exact Nat.lt_succ_of_le (List.length_filter_le _ _)

/-- Distinct month keys of a snapshot. -/
def monthKeys (rows : List Row) : List String := dedupFirst (rows.map monthKey)

/-- Group keys of `data.groupby("Month")` (`app.py:152`): distinct month
labels in ascending order (`groupby` sorts keys by default). -/
def monthKeysSorted (rows : List Row) : List String :=
  (monthKeys rows).mergeSort strLeB

/-- Rows of one month group. -/
def monthRows (rows : List Row) (m : String) : List Row :=
  rows.filter (fun r => monthKey r = m)

/-- Per-month `"Profit": "sum"` (`app.py:153`); NaN cells are skipped. -/
def monthProfit (rows : List Row) (m : String) : ℚ :=
  ((monthRows rows m).filterMap Row.profit).sum

/-- Per-month `"Order": "count"` (`app.py:154`), the rollup's Total
Orders; `Order` is a text column and never null in the model, so count
is the group size. -/
def monthCount (rows : List Row) (m : String) : Nat :=
  (monthRows rows m).length

/-- Per-month `"Quantity": "sum"` (`app.py:155`); NaN cells are
skipped. -/
def monthQty (rows : List Row) (m : String) : ℚ :=
  ((monthRows rows m).filterMap Row.quantity).sum

/-- Whole-snapshot `data["Profit"].sum()` (`app.py:142`); NaN skipped. -/
def totalProfit (rows : List Row) : ℚ := (rows.filterMap Row.profit).sum

/-- Whole-snapshot `data["Quantity"].sum()` (`app.py:141`); NaN
skipped. -/
def totalQuantity (rows : List Row) : ℚ := (rows.filterMap Row.quantity).sum

/-- Whole-snapshot `data["Sale Price"].sum()` (`app.py:143`); NaN
skipped. -/
def totalSales (rows : List Row) : ℚ := (rows.filterMap Row.salePrice).sum

/-- First maximizer of `f` in a list: pandas `idxmax` (first occurrence
of the maximum) and the head of a `value_counts` ranking whose ties keep
first-encountered order. -/
def firstArgmax {α : Type} (f : α → ℕ) : List α → Option α
  | [] => none
  | a :: l =>
      match firstArgmax f l with
      | none => some a
      | some b => if f a < f b then some b else some a

/-- Frequency of one `Order` value: `data["Order"].value_counts()`
(`app.py:213`). -/
def orderFreq (rows : List Row) (v : String) : Nat :=
  (rows.map Row.order).count v

/-- The best-selling product: `data["Order"].value_counts().idxmax()`
(`app.py:213`) — highest frequency, first-encountered value on ties. -/
def bestSellingItem (rows : List Row) : Option String :=
  firstArgmax (orderFreq rows) (dedupFirst (rows.map Row.order))

/-- Mean Sale Price over the rows of one `Order` value
(`app.py:214`): pandas `.mean()` skips NaN and is NaN (`none`) on an
all-NaN selection. -/
def meanSalePrice (rows : List Row) (v : String) : Option ℚ :=
  let ps := (rows.filter (fun r => r.order = v)).filterMap Row.salePrice
  if ps.length = 0 then none else some (ps.sum / ps.length)

/-- The five Insights values printed at `app.py:216-220`. -/
structure Stats where
  bestMonth : String
  bestItem : String
  avgPrice : Option ℚ
  qtyInBestMonth : ℚ
  profitInBestMonth : ℚ
deriving DecidableEq, Repr

/-- Result of the Insights block: either the explicit
"Not enough data to generate monthly summary." state (`app.py:222`) or
the computed statistics. -/
inductive InsightsResult where
  | insufficientData
  | stats (s : Stats)
deriving DecidableEq, Repr

/-- The Insights block (`app.py:206-222`): when the monthly summary is
non-empty, the month with the most orders (`idxmax`, `app.py:209`), the
best-selling product (`app.py:213`), its mean Sale Price (`app.py:214`)
and the Quantity and Profit totals of the best month
(`app.py:210-211`); otherwise the insufficient-data state. -/
def insights (today : Date) (rows : List Row) : InsightsResult :=
  let rows1 := withDates today rows
  let keys := monthKeysSorted rows1
  match firstArgmax (monthCount rows1) keys with
  | none => InsightsResult.insufficientData
  | some m =>
      match bestSellingItem rows1 with
      | none => InsightsResult.insufficientData
      | some b =>
          InsightsResult.stats
            ⟨m, b, meanSalePrice rows1 b, monthQty rows1 m, monthProfit rows1 m⟩

/-! ### Remote Mirror (`upload_to_google_sheets`, `app.py:79-95`) -/

/-- Decimal string of a rational cell for the remote grid; the exact
float formatting is irrelevant to the claims, only that NaN becomes an
empty cell. -/
def ratStr (q : ℚ) : String := toString q.num ++ "/" ++ toString q.den

/-- Cell rendering of `df_sorted.fillna("")` (`app.py:93`): NaN becomes
the empty string. -/
def renderCell : Option ℚ → String
  | none => ""
  | some q => ratStr q

/-- Date rendering `dt.strftime("%d-%m-%Y")` (`app.py:89`): fixed-width
day-month-year; NaT becomes NaN and then `""` via `fillna`. -/
def renderDate (d : Date) : String :=
  pad2 d.day ++ "-" ++ pad2 d.month ++ "-" ++ pad4 d.year

/-- One remote-sheet row of `df_sorted.fillna("").values.tolist()`
(`app.py:93`). -/
def renderRemoteRow (r : Row) : List String :=
  [r.customerName, r.number, r.order, renderCell r.quantity, r.nameset,
   renderCell r.costPrice, renderCell r.salePrice, renderCell r.profit,
   r.orderStatus, r.paymentStatus, r.trackingDetail,
   (match r.date with | some d => renderDate d | none => "")]

/-- The `df.sort_values(by="Date")` step (`app.py:88`): ascending by
date, NaT last. -/
def sortByDate (rows : List Row) : List Row := rows.mergeSort dateLeB

/-- Worksheet acquisition (`app.py:83-86`): the existing tab, or a fresh
blank tab created on `WorksheetNotFound`. -/
def ensureWorksheet (tab : Option (List (List String))) : List (List String) :=
  match tab with
  | some t => t
  | none => []

/-- The `worksheet.clear()` call (`app.py:91`). -/
def clearGrid (_g : List (List String)) : List (List String) := []

/-- Embedding of `upload_to_google_sheets` (`app.py:79-95`): get or
create the tab, clear it, and write the header followed by the
date-sorted, date-formatted snapshot (`app.py:88-94`).  The result is
the tab's new contents. -/
def upload_to_google_sheets (tab : Option (List (List String))) (rows : List Row) :
    List (List String) :=
  let ws := ensureWorksheet tab
  clearGrid ws ++ (EXPECTED_COLS :: (sortByDate rows).map renderRemoteRow)

/-! ### Local Store and session flow (`main`, `app.py:269-431`) -/

/-- ISO date rendering used by `DataFrame.to_csv` for datetime cells. -/
def renderDateIso (d : Date) : String :=
  pad4 d.year ++ "-" ++ pad2 d.month ++ "-" ++ pad2 d.day

/-- One CSV row of `data.to_csv(CSV_FILE, index=False)`; NaN/NaT cells
are written empty. -/
def csvRow (r : Row) : List String :=
  [r.customerName, r.number, r.order, renderCell r.quantity, r.nameset,
   renderCell r.costPrice, renderCell r.salePrice, renderCell r.profit,
   r.orderStatus, r.paymentStatus, r.trackingDetail,
   (match r.date with | some d => renderDateIso d | none => "")]

/-- Embedding of `data.to_csv(CSV_FILE, index=False)` (`app.py:282,335,
395,401`): header row plus one rendered row per record. -/
def to_csv (rows : List Row) : List (List String) :=
  EXPECTED_COLS :: rows.map csvRow

/-- Numeric cell coercion on load, `pd.to_numeric(..., errors="coerce")`
(`app.py:68-70`), mapped into the `Option ℚ` cell model: finite floats
keep their value, and unparseable cells — together with the non-finite
inf/nan spellings, which the `Option ℚ` cell cannot carry — become NaN
(`none`).  The session-flow theorems do not depend on this load-side
idealization. -/
def parseNumericCell (s : String) : Option ℚ :=
  match floatOfString s with
  | some (PyFloat.finite q) => some q
  | _ => none

/-- Date parser for the `DD-MM-YYYY` strings the app stores remotely,
modelling `pd.to_datetime(..., errors="coerce")` (`app.py:72`) on this
app's own output format, read day-first; anything else is NaT (`none`).
This idealizes pandas' format inference (which can read an ambiguous
`05-01-2024` month-first); the session-flow theorems do not depend on
the load-side date parse. -/
def parseDateCell (s : String) : Option Date :=
  match (splitCommas (s.toList.map (fun c => if c = '-' then ',' else c))).map String.mk with
  | [dd, mm, yyyy] =>
      if allDigits dd.toList ∧ allDigits mm.toList ∧ allDigits yyyy.toList ∧
          dd.toList ≠ [] ∧ mm.toList ≠ [] ∧ yyyy.toList ≠ [] then
        some ⟨natOfDigits yyyy.toList, natOfDigits mm.toList, natOfDigits dd.toList⟩
      else none
  | _ => none

/-- Positional parse of one remote data row into a `Row`, under the
canonical header: `pd.to_numeric(..., errors="coerce")` on the four
numeric columns (`app.py:68-70`) and `pd.to_datetime` on Date
(`app.py:71-72`); missing trailing cells read as empty. -/
def parseRow (cells : List String) : Row :=
  { customerName := cells.getD 0 ""
    number := cells.getD 1 ""
    order := cells.getD 2 ""
    quantity := parseNumericCell (cells.getD 3 "")
    nameset := cells.getD 4 ""
    costPrice := parseNumericCell (cells.getD 5 "")
    salePrice := parseNumericCell (cells.getD 6 "")
    profit := parseNumericCell (cells.getD 7 "")
    orderStatus := cells.getD 8 ""
    paymentStatus := cells.getD 9 ""
    trackingDetail := cells.getD 10 ""
    date := parseDateCell (cells.getD 11 "") }

/-- Embedding of `load_data_from_google_sheets` (`app.py:58-73`): fewer
than two rows (no header plus data) yields the empty snapshot; otherwise
every row after the header is parsed. -/
def load_data_from_google_sheets (grid : List (List String)) : List Row :=
  if grid.length < 2 then [] else grid.tail.map parseRow

/-- The two process-external stores: the remote sheet grid and the local
CSV file contents. -/
structure World where
  remoteGrid : List (List String)
  localCsv : List (List String)
deriving DecidableEq, Repr

/-- Session start (`app.py:281-282`): the snapshot is loaded from the
remote sheet and immediately written over the local CSV.  The prior CSV
contents are never read. -/
def sessionStart (w : World) : World × List Row :=
  let snap := load_data_from_google_sheets w.remoteGrid
  ({ remoteGrid := w.remoteGrid, localCsv := to_csv snap }, snap)

/-- A mutation request issued by the UI. -/
inductive Op where
  | add (f : AddFields)
  | edit (i : Nat) (r : Row)
  | del (i : Nat)
deriving DecidableEq, Repr

/-- The in-memory effect of a mutation before persistence: add validates
and may reject (`app.py:318,340-341`); edit and delete always apply
(`app.py:389-393,399`). -/
def applyOp (snap : List Row) : Op → Option (List Row)
  | Op.add f => addOrder snap f
  | Op.edit i r => some (editOrder snap i r)
  | Op.del i => some (deleteOrder snap i)

/-- One mutation with its persistence (`app.py:333-335`, `394-395`,
`400-401`): the source calls `upload_to_google_sheets` first and only
then `data.to_csv`.  A remote failure is modelled at the connection
step, before any store is written — in particular the local CSV write
never runs, because it comes after the upload in the source.  A
rejected add touches no store. -/
def step (remoteOk : Bool) (w : World) (snap : List Row) (op : Op) :
    World × List Row × Except String Unit :=
  match applyOp snap op with
  | none => (w, snap, Except.ok ())
  | some snap1 =>
      if remoteOk then
        ({ remoteGrid := upload_to_google_sheets (some w.remoteGrid) snap1,
           localCsv := to_csv snap1 }, snap1, Except.ok ())
      else
        (w, snap1, Except.error "remote replication failed")

/-- A whole session: load-and-overwrite at start (`app.py:281-282`),
then a sequence of mutations, stopping at the first surfaced failure. -/
def runSession (remoteOk : Bool) (w : World) (ops : List Op) :
    World × List Row × Except String Unit :=
  let s0 := sessionStart w
  ops.foldl (fun acc op =>
    match acc with
    | (w1, snap, Except.ok _) => step remoteOk w1 snap op
    | (w1, snap, Except.error e) => (w1, snap, Except.error e)) (s0.1, s0.2, Except.ok ())

/-! ### Import/Export Adapter -/

/-- A row-oriented table as exchanged with upload/download widgets. -/
structure Table where
  header : List String
  rows : List (List String)
deriving DecidableEq, Repr

/-- Embedding of `to_excel` (`app.py:101-105`) at the table level: the
workbook contains the canonical header and the displayed snapshot's
rows. -/
def to_excel (rows : List (List String)) : Table :=
  ⟨EXPECTED_COLS, rows⟩

/-- Modelled from the spec: `importBatch` (spec §4.4, §4.6, §6) — the
importing side of the adapter is absent from `src/` (the app only exports).
A table is accepted only if its header exactly equals the canonical
schema; otherwise it is rejected with a mismatch signal. -/
def importBatch (t : Table) : Except String (List (List String)) :=
  if t.header = EXPECTED_COLS then Except.ok t.rows
  else Except.error "schema mismatch"

/-- Modelled from the spec: on acceptance the imported rows are appended
to the current snapshot; on rejection no mutation is performed
(spec §4.4). -/
def importInto (snap : List (List String)) (t : Table) :
    Except String (List (List String)) :=
  match importBatch t with
  | Except.ok rs => Except.ok (snap ++ rs)
  | Except.error e => Except.error e

/-- Concrete Add-Order input of the spec's scenario (§8): Alice orders
"Mug, Shirt" at cost 10 and sale 25. -/
def aliceFields : AddFields :=
  { name := "Alice"
    number := "555"
    orderText := "Mug, Shirt"
    quantity := 2
    nameset := ""
    cost := 10
    sale := 25
    status := "Pending"
    payment := "Unpaid"
    tracking := ""
    date := ⟨2024, 1, 5⟩ }

/-- A concrete non-empty snapshot whose only row has an unparseable
(NaT) date. -/
def noDateRow : Row :=
  { customerName := "Bob"
    number := "1"
    order := "Mug"
    quantity := some 1
    nameset := ""
    costPrice := some 1
    salePrice := some 2
    profit := some 1
    orderStatus := "Pending"
    paymentStatus := "Unpaid"
    trackingDetail := ""
    date := none }

/-! ## Theorems -/

/-! ### Helper lemmas -/

/-- Splitting a sum over a predicate: the matching and non-matching
parts of a list add up to the whole. -/
theorem sum_map_filter_split {α M : Type} [AddCommMonoid M]
    (g : α → M) (p : α → Bool) (l : List α) :
    ((l.filter p).map g).sum + ((l.filter (fun a => !(p a))).map g).sum
      = (l.map g).sum := by
  induction l with
  | nil => simp
  | cons a l ih =>
      by_cases h : p a
      · have e1 : (a :: l).filter p = a :: l.filter p := by simp [List.filter_cons, h]
        have e2 : (a :: l).filter (fun x => !(p x)) = l.filter (fun x => !(p x)) := by
          simp [List.filter_cons, h]
        rw [e1, e2, List.map_cons, List.sum_cons, List.map_cons, List.sum_cons,
          ← ih, add_assoc]
      · have e1 : (a :: l).filter p = l.filter p := by simp [List.filter_cons, h]
        have e2 : (a :: l).filter (fun x => !(p x))
            = a :: l.filter (fun x => !(p x)) := by simp [List.filter_cons, h]
        rw [e1, e2, List.map_cons, List.sum_cons, List.map_cons, List.sum_cons,
          ← ih, ← add_assoc, add_comm ((l.filter p).map g).sum (g a), add_assoc]

/-- Summing group sums over a duplicate-free covering key list equals
the whole-list sum. -/
theorem sum_over_keys {α κ M : Type} [DecidableEq κ] [AddCommMonoid M]
    (key : α → κ) (g : α → M) :
    ∀ (keys : List κ) (l : List α), keys.Nodup → (∀ a ∈ l, key a ∈ keys) →
      (keys.map (fun m => ((l.filter (fun a => key a = m)).map g).sum)).sum
        = (l.map g).sum := by
  intro keys
  induction keys with
  | nil =>
      intro l _ hcov
      cases l with
      | nil => simp
      | cons a l => exact absurd (hcov a (by simp)) (by simp)
  | cons m ks ih =>
      intro l hnd hcov
      have hnd2 := List.nodup_cons.mp hnd
      have hcov2 : ∀ a ∈ l.filter (fun a => !(decide (key a = m))), key a ∈ ks := by
        intro a ha
        have hmem := List.mem_filter.mp ha
        have h1 := hcov a hmem.1
        have h2 : ¬(key a = m) := by
          have := hmem.2
          simpa using this
        simp only [List.mem_cons] at h1
        tauto
      have hks : ∀ m2 ∈ ks,
          l.filter (fun a => key a = m2)
            = (l.filter (fun a => !(decide (key a = m)))).filter
                (fun a => key a = m2) := by
        intro m2 hm2
        rw [List.filter_filter]
        apply List.filter_congr
        intro a _
        have hne : m2 ≠ m := by
          rintro rfl
          exact hnd2.1 hm2
        by_cases h : key a = m2
        · simp [h, hne]
        · simp [h]
      have hmapeq :
          ks.map (fun m2 => ((l.filter (fun a => key a = m2)).map g).sum)
            = ks.map (fun m2 =>
                (((l.filter (fun a => !(decide (key a = m)))).filter
                    (fun a => key a = m2)).map g).sum) := by
        apply List.map_congr_left
        intro m2 hm2
        rw [hks m2 hm2]
      simp only [List.map_cons, List.sum_cons]
      rw [hmapeq, ih (l.filter (fun a => !(decide (key a = m)))) hnd2.2 hcov2]
      exact sum_map_filter_split g (fun a => decide (key a = m)) l

/-- Summing the present values of an `Option` column equals summing with
missing cells as zero. -/
theorem sum_filterMap_getD {α : Type} (f : α → Option ℚ) (l : List α) :
    (l.filterMap f).sum = (l.map (fun a => (f a).getD 0)).sum := by
  induction l with
  | nil => simp
  | cons a l ih =>
      cases h : f a with
      | none => simp [List.filterMap_cons, h, ih]
      | some q => simp [List.filterMap_cons, h, ih]

/-- A sum of ones counts the list length. -/
theorem sum_ones_eq_length {α : Type} (l : List α) :
    (l.map (fun _ => (1 : ℕ))).sum = l.length := by
  induction l with
  | nil => simp
  | cons a l ih => simp [ih]; omega

/-- Membership is preserved by first-occurrence deduplication. -/
theorem mem_dedupFirst {α : Type} [DecidableEq α] :
    ∀ (l : List α) (a : α), a ∈ dedupFirst l ↔ a ∈ l := by
  intro l
  induction l using dedupFirst.induct with
  | case1 => intro a; simp [dedupFirst]
  | case2 b l ih =>
      intro a
      simp only [dedupFirst, List.mem_cons, ih]
      by_cases h : a = b
      · simp [h]
      · simp only [List.mem_filter, h, false_or]
        constructor
        · intro hx; exact hx.1
        · intro hx; exact ⟨hx, by simpa using h⟩

/-- First-occurrence deduplication yields a duplicate-free list. -/
theorem nodup_dedupFirst {α : Type} [DecidableEq α] :
    ∀ l : List α, (dedupFirst l).Nodup := by
  intro l
  induction l using dedupFirst.induct with
  | case1 => simp [dedupFirst]
  | case2 b l ih =>
      simp only [dedupFirst, List.nodup_cons]
      refine ⟨?_, ih⟩
      intro hmem
      have := (mem_dedupFirst _ _).mp hmem
      have := (List.mem_filter.mp this).2
      simp at this

/-- Deduplication is empty exactly on the empty list. -/
theorem dedupFirst_eq_nil {α : Type} [DecidableEq α] (l : List α) :
    dedupFirst l = [] ↔ l = [] := by
  cases l <;> simp [dedupFirst]

/-- firstArgmax finds nothing exactly on the empty list. -/
theorem firstArgmax_eq_none {α : Type} (f : α → ℕ) (l : List α) :
    firstArgmax f l = none ↔ l = [] := by
  cases l with
  | nil => simp [firstArgmax]
  | cons a l =>
      cases h : firstArgmax f l with
      | none => simp [firstArgmax, h]
      | some c =>
          simp only [firstArgmax, h]
          constructor
          · intro hc
            split at hc <;> simp at hc
          · intro hc
            simp at hc

/-- Specification of `firstArgmax`: the result maximizes `f` and is the
earliest maximizer — everything strictly before it is strictly
smaller. -/
theorem firstArgmax_spec {α : Type} (f : α → ℕ) :
    ∀ (l : List α) (a : α), firstArgmax f l = some a →
      (∀ x ∈ l, f x ≤ f a) ∧
      ∃ l₁ l₂, l = l₁ ++ a :: l₂ ∧ ∀ x ∈ l₁, f x < f a := by
  intro l
  induction l with
  | nil => intro a h; simp [firstArgmax] at h
  | cons b l ih =>
      intro a h
      cases hh : firstArgmax f l with
      | none =>
          have hl : l = [] := (firstArgmax_eq_none f l).mp hh
          subst hl
          simp only [firstArgmax] at h
          injection h with h
          subst h
          exact ⟨by simp, [], [], rfl, by simp⟩
      | some c =>
          obtain ⟨hmax, l₁, l₂, hsplit, hlt⟩ := ih c hh
          simp only [firstArgmax, hh] at h
          by_cases hcmp : f b < f c
          · rw [if_pos hcmp] at h
            injection h with h
            subst h
            refine ⟨?_, b :: l₁, l₂, by simp [hsplit], ?_⟩
            · intro x hx
              rcases List.mem_cons.mp hx with hx | hx
              · subst hx; exact Nat.le_of_lt hcmp
              · exact hmax x hx
            · intro x hx
              rcases List.mem_cons.mp hx with hx | hx
              · subst hx; exact hcmp
              · exact hlt x hx
          · rw [if_neg hcmp] at h
            injection h with h
            subst h
            push_neg at hcmp
            refine ⟨?_, [], l, rfl, by simp⟩
            intro x hx
            rcases List.mem_cons.mp hx with hx | hx
            · subst hx; exact Nat.le_refl _
            · exact Nat.le_trans (hmax x hx) hcmp

/-- The date comparison is transitive. -/
theorem dateLeB_trans (a b c : Row) (hab : dateLeB a b = true)
    (hbc : dateLeB b c = true) : dateLeB a c = true := by
  cases hA : a.date <;> cases hB : b.date <;> cases hC : c.date <;>
    simp only [dateLeB, hA, hB, hC] at hab hbc ⊢ <;>
    try trivial
  simp only [decide_eq_true_eq] at hab hbc ⊢
  omega

/-- The date comparison is total. -/
theorem dateLeB_total (a b : Row) : dateLeB a b || dateLeB b a := by
  cases hA : a.date <;> cases hB : b.date <;>
    simp only [dateLeB, hA, hB] <;>
    try trivial
  simp only [decide_eq_true_eq, Bool.or_eq_true]
  omega

/-- Date normalization preserves non-emptiness. -/
theorem withDates_ne_nil (today : Date) (rows : List Row) (h : rows ≠ []) :
    withDates today rows ≠ [] := by
  unfold withDates
  by_cases hall : rows.all (fun r => r.date = none)
  · simp [hall, h]
  · simp only [hall, Bool.false_eq_true, if_neg, if_false]
    intro hco
    have := (List.mergeSort_perm rows dateLeB).length_eq
    rw [hco] at this
    simp at this
    exact h (List.eq_nil_of_length_eq_zero this.symm)

/-- Every row's month key appears among the sorted group keys. -/
theorem mem_monthKeysSorted (rows : List Row) (r : Row) (h : r ∈ rows) :
    monthKey r ∈ monthKeysSorted rows := by
  unfold monthKeysSorted monthKeys
  rw [List.mem_mergeSort, mem_dedupFirst]
  exact List.mem_map_of_mem _ h

/-- The sorted group keys are duplicate-free. -/
theorem nodup_monthKeysSorted (rows : List Row) :
    (monthKeysSorted rows).Nodup := by
  unfold monthKeysSorted
  exact ((List.mergeSort_perm _ _).nodup_iff).mpr (nodup_dedupFirst _)

/-- The group-key list is empty exactly when the snapshot is empty. -/
theorem monthKeysSorted_eq_nil (rows : List Row) :
    monthKeysSorted rows = [] ↔ rows = [] := by
  unfold monthKeysSorted monthKeys
  constructor
  · intro h
    have := (List.mergeSort_perm (dedupFirst (rows.map monthKey)) strLeB).length_eq
    rw [h] at this
    have h2 := List.eq_nil_of_length_eq_zero this.symm
    have h3 := (dedupFirst_eq_nil _).mp h2
    simpa using h3
  · intro h
    subst h
    simp [dedupFirst]

/-- C3: Add-Order persists a new row iff Customer Name, Number and at
least one non-empty Order item are supplied; the order text is split on
commas and newlines, rejoined with the fixed delimiter `"; "`, and the
stored Profit is Sale Price minus Cost Price. -/
theorem addOrder_contract (snap : List Row) (f : AddFields) :
    (addOrder snap f = none ↔
      (f.name = "" ∨ f.number = "" ∨ splitOrders f.orderText = [])) ∧
    (f.name ≠ "" → f.number ≠ "" → splitOrders f.orderText ≠ [] →
      ∃ r, addOrder snap f = some (snap ++ [r]) ∧
        r.order = String.intercalate "; " (splitOrders f.orderText) ∧
        r.profit = some (f.sale - f.cost) ∧
        r.customerName = f.name ∧ r.number = f.number ∧
        r.quantity = some f.quantity ∧ r.costPrice = some f.cost ∧
        r.salePrice = some f.sale) := by
  constructor
  · by_cases h : f.name ≠ "" ∧ f.number ≠ "" ∧ splitOrders f.orderText ≠ []
    · simp only [addOrder, if_pos h]
      constructor
      · intro hc
        exact absurd hc (by simp)
      · intro hc
        tauto
    · simp only [addOrder, if_neg h]
      constructor
      · intro _
        tauto
      · intro _
        trivial
  · intro h1 h2 h3
    refine ⟨mkRow f, ?_, ?_, ?_, ?_, ?_, ?_, ?_, ?_⟩ <;>
      simp [addOrder, mkRow, h1, h2, h3]

/-- Witness for C3 at the spec's concrete scenario: the persisted row
has Order "Mug; Shirt" and Profit 15. -/
theorem addOrder_contract_witness :
    ∃ r, addOrder [] aliceFields = some ([] ++ [r]) ∧
      r.order = "Mug; Shirt" ∧ r.profit = some 15 := by
  obtain ⟨r, hsome, horder, hprofit, -⟩ :=
    (addOrder_contract [] aliceFields).2 (by decide) (by decide) (by decide)
  refine ⟨r, hsome, ?_, ?_⟩
  · rw [horder]; decide
  · rw [hprofit]
    norm_num [aliceFields]

/-- C5: computeProfit is Sale Price minus Cost Price with no clamping —
it may be negative — and both the add and edit paths store exactly this
value in the record. -/
theorem computeProfit_contract (cost sale : ℚ) (_h1 : 0 ≤ cost) (_h2 : 0 ≤ sale) :
    computeProfit cost sale = sale - cost ∧
    (∀ f : AddFields, f.cost = cost → f.sale = sale →
      (mkRow f).profit = some (computeProfit cost sale)) ∧
    (∀ (name number order : String) (q : ℚ) (ns st pay tr : String) (d : Date),
      (editRow name number order q ns cost sale st pay tr d).profit
        = some (computeProfit cost sale)) ∧
    (sale < cost → computeProfit cost sale < 0) := by
  refine ⟨rfl, ?_, ?_, ?_⟩
  · intro f hc hs
    simp [mkRow, computeProfit, hc, hs]
  · intro name number order q ns st pay tr d
    simp [editRow, computeProfit]
  · intro h
    simp only [computeProfit]
    linarith

/-- Witness for C5 at a loss-making pair (cost 25, sale 10): the profit
is negative and preserved as-is. -/
theorem computeProfit_contract_witness :
    computeProfit 25 10 = 10 - 25 ∧ computeProfit 25 10 < 0 ∧
    (editRow "A" "1" "Mug" 1 "" 25 10 "Pending" "Unpaid" "" ⟨2024, 1, 5⟩).profit
      = some (computeProfit 25 10) := by
  obtain ⟨ha, -, hc, hd⟩ := computeProfit_contract 25 10 (by norm_num) (by norm_num)
  exact ⟨ha, hd (by norm_num), hc "A" "1" "Mug" 1 "" "Pending" "Unpaid" "" ⟨2024, 1, 5⟩⟩

/-- C7: enum normalization trims the raw value, matches it
case-sensitively against the allowed list, and always returns a member
of the allowed list — the trimmed input itself on a match, the first
member otherwise, never an error. -/
theorem normalizeEnum_contract (raw : String) (allowed : List String)
    (h : allowed ≠ []) :
    normalizeEnum raw allowed ∈ allowed ∧
    (pyStrip raw ∈ allowed → normalizeEnum raw allowed = pyStrip raw) ∧
    (pyStrip raw ∉ allowed →
      ∃ hne : allowed ≠ [], normalizeEnum raw allowed = allowed.head hne) := by
  by_cases hm : pyStrip raw ∈ allowed
  · refine ⟨?_, fun _ => ?_, fun hc => absurd hm hc⟩ <;>
      simp [normalizeEnum, hm]
  · cases allowed with
    | nil => exact absurd rfl h
    | cons a l =>
        refine ⟨?_, fun hc => absurd hc hm, fun _ => ⟨h, ?_⟩⟩ <;>
          simp [normalizeEnum, hm]

/-- Witness for C7: a padded valid value is trimmed and kept, while a
foreign value falls back to the first member "Pending". -/
theorem normalizeEnum_contract_witness :
    normalizeEnum " Shipped " ORDER_STATUS_OPTIONS = "Shipped" ∧
    normalizeEnum "Refunded" ORDER_STATUS_OPTIONS = "Pending" ∧
    normalizeEnum "Refunded" ORDER_STATUS_OPTIONS ∈ ORDER_STATUS_OPTIONS := by
  have h1 := (normalizeEnum_contract " Shipped " ORDER_STATUS_OPTIONS (by decide)).2.1
    (by decide)
  have h2 := (normalizeEnum_contract "Refunded" ORDER_STATUS_OPTIONS (by decide)).2.2
    (by decide)
  have h3 := (normalizeEnum_contract "Refunded" ORDER_STATUS_OPTIONS (by decide)).1
  obtain ⟨hne, h2⟩ := h2
  refine ⟨?_, ?_, h3⟩
  · rw [h1]; decide
  · rw [h2]; rfl

/-- C8 (code bug): the claim's never-raises contract fails in the code
for safe_int — `int(float("inf"))` (equally `"Infinity"` or `"1e400"`)
raises `OverflowError`, which the `except (ValueError, TypeError)` at
`app.py:113` does not catch, so the exception escapes to the caller.
safe_float genuinely never raises (`float()` itself only raises
`ValueError`/`TypeError`, both caught), numeric-like strings such as
"3.0" are coerced, and garbage, `None` and NaN yield the documented
defaults. -/
theorem safe_int_overflow_bug :
    safe_int (PyVal.str "inf") 1 = Except.error PyErr.overflowError ∧
    safe_int (PyVal.str "Infinity") 1 = Except.error PyErr.overflowError ∧
    safe_int (PyVal.str "1e400") 1 = Except.error PyErr.overflowError ∧
    safe_float (PyVal.str "inf") (PyFloat.finite 0) = Except.ok PyFloat.inf ∧
    (∀ (v : PyVal) (d : PyFloat), ∃ f, safe_float v d = Except.ok f) ∧
    safe_int (PyVal.str "3.0") 1 = Except.ok 3 ∧
    safe_int (PyVal.str "abc") 1 = Except.ok 1 ∧
    safe_int (PyVal.num PyFloat.nan) 1 = Except.ok 1 ∧
    safe_int PyVal.none_ 1 = Except.ok 1 ∧
    safe_float PyVal.none_ (PyFloat.finite 0) = Except.ok (PyFloat.finite 0) := by
  have hshape : floatOfString "1e400"
      = (if ((1 : ℕ) : ℚ) * 10 ^ (400 : ℕ) > DBL_MAX then some PyFloat.inf
         else if ((1 : ℕ) : ℚ) * 10 ^ (400 : ℕ) < -DBL_MAX then some PyFloat.negInf
         else some (PyFloat.finite (((1 : ℕ) : ℚ) * 10 ^ (400 : ℕ)))) := rfl
  have h1e400 : floatOfString "1e400" = some PyFloat.inf := by
    rw [hshape, if_pos (by norm_num [DBL_MAX])]
  have h30 : floatOfString "3.0" = some (PyFloat.finite 3) := by
    simp [floatOfString, parseMantissaExp, parseDecimalMantissa, trimChars,
      lowerStr, lowerChar, allDigits, natOfDigits, DBL_MAX]
    norm_num
  refine ⟨rfl, rfl, ?_, rfl, ?_, ?_, rfl, rfl, rfl, rfl⟩
  · simp [safe_int, catchValueType, float_, int_, Except.bind, h1e400]
  · intro v d
    cases v with
    | num f => exact ⟨f, rfl⟩
    | none_ => exact ⟨d, rfl⟩
    | str s =>
        cases h : floatOfString s with
        | some f => exact ⟨f, by simp [safe_float, catchValueType, float_, h]⟩
        | none => exact ⟨d, by simp [safe_float, catchValueType, float_, h]⟩
  · have : int_ (PyFloat.finite 3) = Except.ok 3 := by
      simp [int_]
    simp [safe_int, catchValueType, float_, Except.bind, h30, this]

/-- C6: the Monthly Rollup's per-month sums of Profit, row count and
Quantity, summed across all month groups, equal the whole-snapshot
grand totals (total profit, total order count, total quantity). -/
theorem monthly_rollup_totals (rows : List Row) :
    ((monthKeysSorted rows).map (fun m => monthProfit rows m)).sum
      = totalProfit rows ∧
    ((monthKeysSorted rows).map (fun m => monthCount rows m)).sum
      = rows.length ∧
    ((monthKeysSorted rows).map (fun m => monthQty rows m)).sum
      = totalQuantity rows := by
  have hnd := nodup_monthKeysSorted rows
  have hcov : ∀ r ∈ rows, monthKey r ∈ monthKeysSorted rows :=
    fun r hr => mem_monthKeysSorted rows r hr
  refine ⟨?_, ?_, ?_⟩
  · have h1 := sum_over_keys monthKey (fun r => (Row.profit r).getD 0)
      (monthKeysSorted rows) rows hnd hcov
    simp only [monthProfit, monthRows, sum_filterMap_getD, totalProfit]
    rw [h1, ← sum_filterMap_getD]
  · have h1 := sum_over_keys monthKey (fun _ => (1 : ℕ))
      (monthKeysSorted rows) rows hnd hcov
    simp only [monthCount, monthRows, ← sum_ones_eq_length]
    rw [h1]
  · have h1 := sum_over_keys monthKey (fun r => (Row.quantity r).getD 0)
      (monthKeysSorted rows) rows hnd hcov
    simp only [monthQty, monthRows, sum_filterMap_getD, totalQuantity]
    rw [h1, ← sum_filterMap_getD]

/-- Whenever the snapshot is non-empty the Insights block produces a
statistics record — the monthly summary is never empty, because every
row lands in some month bucket (NaT rows get the "NaT" bucket, and an
all-NaT frame is re-dated to today first). -/
theorem insights_stats_of_ne_nil (today : Date) (rows : List Row) (h : rows ≠ []) :
    ∃ m b,
      firstArgmax (monthCount (withDates today rows))
        (monthKeysSorted (withDates today rows)) = some m ∧
      bestSellingItem (withDates today rows) = some b ∧
      insights today rows = InsightsResult.stats
        ⟨m, b, meanSalePrice (withDates today rows) b,
         monthQty (withDates today rows) m,
         monthProfit (withDates today rows) m⟩ := by
  have hrows1 : withDates today rows ≠ [] := withDates_ne_nil today rows h
  have hkeys : monthKeysSorted (withDates today rows) ≠ [] := by
    rw [Ne, monthKeysSorted_eq_nil]
    exact hrows1
  obtain ⟨m, hm⟩ : ∃ m, firstArgmax (monthCount (withDates today rows))
      (monthKeysSorted (withDates today rows)) = some m := by
    cases hfa : firstArgmax (monthCount (withDates today rows))
        (monthKeysSorted (withDates today rows)) with
    | none => exact absurd ((firstArgmax_eq_none _ _).mp hfa) hkeys
    | some m => exact ⟨m, rfl⟩
  obtain ⟨b, hb⟩ : ∃ b, bestSellingItem (withDates today rows) = some b := by
    unfold bestSellingItem
    cases hfa : firstArgmax (orderFreq (withDates today rows))
        (dedupFirst ((withDates today rows).map Row.order)) with
    | none =>
        have h1 := (firstArgmax_eq_none _ _).mp hfa
        rw [dedupFirst_eq_nil, List.map_eq_nil_iff] at h1
        exact absurd h1 hrows1
    | some b => exact ⟨b, rfl⟩
  refine ⟨m, b, hm, hb, ?_⟩
  simp only [insights, hm, hb]

/-- C2 (amended): for every non-empty snapshot — whether or not any
date parses — Insights reports numeric answers: a best month that is a
first maximizer of Total Orders in the sorted grouped ordering, a
best-selling Order value that is a first maximizer of the frequency
ranking, its mean Sale Price, and the Quantity and Profit totals of the
best month.  Only the empty snapshot yields the insufficient-data
state. -/
theorem insights_contract (today : Date) (rows : List Row) :
    (rows = [] → insights today rows = InsightsResult.insufficientData) ∧
    (rows ≠ [] → ∃ s, insights today rows = InsightsResult.stats s ∧
      s.bestMonth ∈ monthKeysSorted (withDates today rows) ∧
      (∀ m ∈ monthKeysSorted (withDates today rows),
        monthCount (withDates today rows) m
          ≤ monthCount (withDates today rows) s.bestMonth) ∧
      (∃ k₁ k₂, monthKeysSorted (withDates today rows)
          = k₁ ++ s.bestMonth :: k₂ ∧
        ∀ m ∈ k₁, monthCount (withDates today rows) m
          < monthCount (withDates today rows) s.bestMonth) ∧
      s.bestItem ∈ (withDates today rows).map Row.order ∧
      (∀ v ∈ (withDates today rows).map Row.order,
        orderFreq (withDates today rows) v
          ≤ orderFreq (withDates today rows) s.bestItem) ∧
      (∃ v₁ v₂, dedupFirst ((withDates today rows).map Row.order)
          = v₁ ++ s.bestItem :: v₂ ∧
        ∀ v ∈ v₁, orderFreq (withDates today rows) v
          < orderFreq (withDates today rows) s.bestItem) ∧
      s.avgPrice = meanSalePrice (withDates today rows) s.bestItem ∧
      s.qtyInBestMonth = monthQty (withDates today rows) s.bestMonth ∧
      s.profitInBestMonth = monthProfit (withDates today rows) s.bestMonth) := by
  constructor
  · rintro rfl
    simp [insights, withDates, monthKeysSorted, monthKeys, dedupFirst, firstArgmax]
  · intro h
    obtain ⟨m, b, hm, hb, hins⟩ := insights_stats_of_ne_nil today rows h
    obtain ⟨hmax, k₁, k₂, hsplit, hstrict⟩ := firstArgmax_spec _ _ _ hm
    have hbspec := by
      unfold bestSellingItem at hb
      exact firstArgmax_spec _ _ _ hb
    obtain ⟨bmax, v₁, v₂, bsplit, bstrict⟩ := hbspec
    refine ⟨⟨m, b, meanSalePrice (withDates today rows) b,
      monthQty (withDates today rows) m,
      monthProfit (withDates today rows) m⟩,
      hins, ?_, ?_, ⟨k₁, k₂, hsplit, hstrict⟩, ?_, ?_,
      ⟨v₁, v₂, bsplit, bstrict⟩, rfl, rfl, rfl⟩
    · rw [hsplit]
      simp
    · exact hmax
    · have hbmem : b ∈ dedupFirst ((withDates today rows).map Row.order) := by
        rw [bsplit]
        simp
      exact (mem_dedupFirst _ _).mp hbmem
    · intro v hv
      exact bmax v ((mem_dedupFirst _ _).mpr hv)

/-- C2 counterexample: a non-empty snapshot with no parseable date does
NOT yield the insufficient-data state — the Date column is re-dated to
today and numeric insights are produced. -/
theorem insights_no_dates_counterexample :
    insights ⟨2024, 1, 5⟩ [noDateRow] ≠ InsightsResult.insufficientData := by
  obtain ⟨m, b, -, -, hins⟩ :=
    insights_stats_of_ne_nil ⟨2024, 1, 5⟩ [noDateRow] (by simp)
  rw [hins]
  intro hc
  cases hc

/-- Witness for the amended C2 at the one-row NaT-dated snapshot: the
statistics record exists and its best month is among the group keys. -/
theorem insights_contract_witness :
    insights ⟨2024, 1, 5⟩ [] = InsightsResult.insufficientData ∧
    ∃ s, insights ⟨2024, 1, 5⟩ [noDateRow] = InsightsResult.stats s ∧
      s.bestMonth ∈ monthKeysSorted (withDates ⟨2024, 1, 5⟩ [noDateRow]) := by
  refine ⟨(insights_contract ⟨2024, 1, 5⟩ []).1 rfl, ?_⟩
  obtain ⟨s, hs, hmem, -⟩ :=
    (insights_contract ⟨2024, 1, 5⟩ [noDateRow]).2 (by simp)
  exact ⟨s, hs, hmem⟩

/-- C9: remote replication is a full clear-then-rewrite — the resulting
tab holds exactly the header row followed by the snapshot's rows
(a permutation-preserving sort) in ascending date order, with dates
rendered as fixed-width DD-MM-YYYY strings; a missing tab is created on
demand, producing the same result as an existing one. -/
theorem upload_contract (tab : Option (List (List String))) (rows : List Row) :
    upload_to_google_sheets tab rows
      = EXPECTED_COLS :: (sortByDate rows).map renderRemoteRow ∧
    (sortByDate rows).Perm rows ∧
    List.Pairwise (fun a b => dateLeB a b = true) (sortByDate rows) ∧
    (∀ t, upload_to_google_sheets none rows
      = upload_to_google_sheets (some t) rows) ∧
    (∀ d : Date, (renderDate d).length = 10) ∧
    renderDate ⟨2024, 1, 5⟩ = "05-01-2024" := by
  refine ⟨?_, List.mergeSort_perm rows dateLeB, ?_, ?_, fun d => rfl, by decide⟩
  · cases tab <;> rfl
  · exact List.sorted_mergeSort dateLeB_trans dateLeB_total rows
  · intro t
    rfl

/-- C1 counterexample: with the remote upload failing on a valid add to
the empty snapshot, the mutation surfaces an error and the local CSV
still holds its old contents — the local write did NOT happen (and in
particular did not precede remote replication), because `data.to_csv`
runs only after `upload_to_google_sheets` in the source
(`app.py:334-335`). -/
theorem local_first_counterexample :
    applyOp [] (Op.add aliceFields) = some ([] ++ [mkRow aliceFields]) ∧
    (step false ⟨[], [["old"]]⟩ [] (Op.add aliceFields)).2.2
      = Except.error "remote replication failed" ∧
    (step false ⟨[], [["old"]]⟩ [] (Op.add aliceFields)).1.localCsv = [["old"]] ∧
    ([["old"]] : List (List String)) ≠ to_csv ([] ++ [mkRow aliceFields]) := by
  exact ⟨rfl, rfl, rfl, by decide⟩

/-- C1 (amended): for every applied mutation, remote replication comes
first and the local write happens only after it succeeds — on success
both stores are updated; on remote failure the error is surfaced with
neither store written, so the local CSV is left stale rather than
committed. -/
theorem sync_order_contract (w : World) (snap : List Row) (op : Op)
    (snap1 : List Row) (h : applyOp snap op = some snap1) :
    ((step false w snap op).1 = w ∧
     (step false w snap op).2.2 = Except.error "remote replication failed") ∧
    ((step true w snap op).1.localCsv = to_csv snap1 ∧
     (step true w snap op).1.remoteGrid
       = upload_to_google_sheets (some w.remoteGrid) snap1 ∧
     (step true w snap op).2.2 = Except.ok ()) := by
  simp [step, h]

/-- Witness for amended C1 at a concrete add: remote failure leaves the
world untouched and surfaces the error; remote success updates both
stores. -/
theorem sync_order_contract_witness :
    ((step false ⟨[], [["old"]]⟩ [] (Op.add aliceFields)).1 = ⟨[], [["old"]]⟩ ∧
     (step false ⟨[], [["old"]]⟩ [] (Op.add aliceFields)).2.2
       = Except.error "remote replication failed") ∧
    ((step true ⟨[], [["old"]]⟩ [] (Op.add aliceFields)).1.localCsv
       = to_csv ([] ++ [mkRow aliceFields]) ∧
     (step true ⟨[], [["old"]]⟩ [] (Op.add aliceFields)).1.remoteGrid
       = upload_to_google_sheets (some []) ([] ++ [mkRow aliceFields]) ∧
     (step true ⟨[], [["old"]]⟩ [] (Op.add aliceFields)).2.2 = Except.ok ()) :=
  sync_order_contract ⟨[], [["old"]]⟩ [] (Op.add aliceFields)
    ([] ++ [mkRow aliceFields]) rfl

/-- C10: the local CSV is write-only — a whole session's outcome is
independent of the CSV's prior contents; at session start the CSV is
overwritten with the snapshot loaded from the remote mirror, and every
successfully persisted mutation overwrites it with the full current
snapshot. -/
theorem local_csv_write_only (remoteOk : Bool) (r c1 c2 : List (List String))
    (ops : List Op) :
    runSession remoteOk ⟨r, c1⟩ ops = runSession remoteOk ⟨r, c2⟩ ops ∧
    (sessionStart ⟨r, c1⟩).1.localCsv = to_csv (load_data_from_google_sheets r) ∧
    (sessionStart ⟨r, c1⟩).2 = load_data_from_google_sheets r ∧
    (∀ (w : World) (snap : List Row) (op : Op) (snap1 : List Row),
      applyOp snap op = some snap1 →
      (step true w snap op).1.localCsv = to_csv snap1) := by
  refine ⟨rfl, rfl, rfl, ?_⟩
  intro w snap op snap1 h
  simp [step, h]

/-- Witness for C10: two sessions differing only in the stale CSV agree,
and a persisted add rewrites the CSV with the new snapshot. -/
theorem local_csv_write_only_witness :
    runSession true ⟨[], [["stale"]]⟩ [] = runSession true ⟨[], []⟩ [] ∧
    (step true ⟨[], []⟩ [] (Op.add aliceFields)).1.localCsv
      = to_csv ([] ++ [mkRow aliceFields]) := by
  refine ⟨(local_csv_write_only true [] [["stale"]] [] []).1, ?_⟩
  exact (local_csv_write_only true [] [] [] []).2.2.2 ⟨[], []⟩ [] (Op.add aliceFields)
    ([] ++ [mkRow aliceFields]) rfl

/-- C4: importing the export of any snapshot returns exactly the same
rows (column order and values preserved), and a table whose header is
not exactly the canonical schema is rejected with no partial import. -/
theorem import_export_contract (S : List (List String)) :
    importBatch (to_excel S) = Except.ok S ∧
    (∀ snap, importInto snap (to_excel S) = Except.ok (snap ++ S)) ∧
    (∀ t : Table, t.header ≠ EXPECTED_COLS →
      importBatch t = Except.error "schema mismatch" ∧
      ∀ snap, importInto snap t = Except.error "schema mismatch") := by
  refine ⟨rfl, fun snap => rfl, ?_⟩
  intro t ht
  have h1 : importBatch t = Except.error "schema mismatch" := by
    simp [importBatch, ht]
  refine ⟨h1, fun snap => ?_⟩
  simp [importInto, h1]

/-- Witness for C4: a one-row export round-trips, and a table whose
header omits "Tracking Detail" is rejected without touching the
snapshot. -/
theorem import_export_contract_witness :
    importBatch (to_excel [["r1"]]) = Except.ok [["r1"]] ∧
    importBatch ⟨["Customer Name", "Number", "Order", "Quantity", "Nameset",
      "Cost Price", "Sale Price", "Profit", "Order Status", "Payment Status",
      "Date"], []⟩ = Except.error "schema mismatch" ∧
    importInto [["r1"]] ⟨["Customer Name", "Number", "Order", "Quantity",
      "Nameset", "Cost Price", "Sale Price", "Profit", "Order Status",
      "Payment Status", "Date"], []⟩ = Except.error "schema mismatch" := by
  obtain ⟨h1, -, h3⟩ := import_export_contract [["r1"]]
  obtain ⟨h4, h5⟩ := h3 ⟨["Customer Name", "Number", "Order", "Quantity",
    "Nameset", "Cost Price", "Sale Price", "Profit", "Order Status",
    "Payment Status", "Date"], []⟩ (by decide)
  exact ⟨h1, h4, h5 [["r1"]]⟩

end OrderFlow
